import Mathlib

/-!
Verification of the PM2.5 forecasting demo (`src/streamlit_app.py`).

The development shallowly embeds the program's logic:
* a calendar model for pandas' `Timestamp + Timedelta(days=1)` and `.dayofyear`;
* the daily feature table rows consumed by the forecast assembly block;
* the forecast assembly block itself (`X_pred` construction, lines 101–111);
* pandas column selection `pd.DataFrame([X_pred])[feature_cols]`;
* the geocoder `get_city_coordinates` and the two observation fetchers
  `fetch_pm25` / `fetch_weather`, with external HTTP responses as explicit
  inputs and uncaught Python exceptions as `Except.error`;
* the button-handler control flow that gates prediction.
-/

namespace Vajra

/-- A Python scalar as it appears in the assembled feature dict: a numeric
value (modelled as a rational) or pandas' NaN (produced by `rolling(3).mean()`
on fewer than 3 rows). -/
inductive PyVal where
  | num (q : ℚ)
  | nan
deriving DecidableEq, Repr

/-- A calendar date, as carried by the daily table's `timestamp` column. -/
structure Date where
  year : Int
  month : Nat
  day : Nat
deriving DecidableEq, Repr

/-- Gregorian leap-year rule (as implemented by `pandas`/`datetime`). -/
def isLeap (y : Int) : Bool :=
  (y % 4 == 0 && y % 100 != 0) || y % 400 == 0

/-- Number of days in a month of a given year. -/
def daysInMonth (y : Int) (m : Nat) : Nat :=
  match m with
  | 1 => 31 | 2 => if isLeap y then 29 else 28
  | 3 => 31 | 4 => 30 | 5 => 31 | 6 => 30
  | 7 => 31 | 8 => 31 | 9 => 30 | 10 => 31
  | 11 => 30 | 12 => 31
  | _ => 0

/-- The calendar day after `d`: pandas' `Timestamp(d) + Timedelta(days=1)`. -/
def nextDay (d : Date) : Date :=
  if d.day < daysInMonth d.year d.month then
    ⟨d.year, d.month, d.day + 1⟩
  else if d.month < 12 then
    ⟨d.year, d.month + 1, 1⟩
  else
    ⟨d.year + 1, 1, 1⟩

/-- Ordinal day-of-year of a date: pandas' `Timestamp.dayofyear`. -/
def dayOfYear (d : Date) : Nat :=
  (List.range (d.month - 1)).foldl (fun acc m => acc + daysInMonth d.year (m + 1)) 0
    + d.day

/-- One row of the daily feature table produced by the external
`make_daily_features` collaborator, after `reset_index()`: per spec §4.3 its
contract is one row per calendar day, sorted chronologically, with columns
`{timestamp, pm25, temperature, relativehumidity, windspeed}`. -/
structure DailyRow where
  timestamp : Date
  pm25 : ℚ
  temperature : ℚ
  relativehumidity : ℚ
  windspeed : ℚ
deriving DecidableEq, Repr

/-- The assembled forecast-input dict `X_pred`, one field per key assigned in
lines 102–111 of `streamlit_app.py`, in insertion order. -/
structure XPred where
  temperature : PyVal
  relativehumidity : PyVal
  windspeed : PyVal
  pm25_lag_1 : PyVal
  pm25_lag_2 : PyVal
  pm25_lag_3 : PyVal
  pm25_lag_7 : PyVal
  pm25_ma_3 : PyVal
  dayofyear : PyVal
deriving DecidableEq, Repr

/-- The dict's key/value pairs in insertion order, as materialised by
`pd.DataFrame([X_pred])` (pandas preserves dict insertion order). -/
def XPred.toPairs (x : XPred) : List (String × PyVal) :=
  [("temperature", x.temperature),
   ("relativehumidity", x.relativehumidity),
   ("windspeed", x.windspeed),
   ("pm25_lag_1", x.pm25_lag_1),
   ("pm25_lag_2", x.pm25_lag_2),
   ("pm25_lag_3", x.pm25_lag_3),
   ("pm25_lag_7", x.pm25_lag_7),
   ("pm25_ma_3", x.pm25_ma_3),
   ("dayofyear", x.dayofyear)]

/-- The forecast assembly block (lines 101–111): builds `X_pred` from the
daily feature table `rows`.  `none` models the `IndexError` that
`df_feats.iloc[-1]` raises on an empty table (unreachable in the program,
which guards `len(df_feats) >= 10`).  `iloc[-k]` is the element at index
`length - k`; each lag guard mirrors `if len(df_feats) >= k`.
`rolling(3).mean().iloc[-1]` is the mean of the last three pm25 values, NaN
when the table has fewer than three rows. -/
def assembleXPred (rows : List DailyRow) : Option XPred :=
  if h1 : 1 ≤ rows.length then
    let last := rows.get ⟨rows.length - 1, by omega⟩
    some
      { temperature := .num last.temperature
        relativehumidity := .num last.relativehumidity
        windspeed := .num last.windspeed
        pm25_lag_1 := .num last.pm25
        pm25_lag_2 := .num (if h : 2 ≤ rows.length then
            (rows.get ⟨rows.length - 2, by omega⟩).pm25 else last.pm25)
        pm25_lag_3 := .num (if h : 3 ≤ rows.length then
            (rows.get ⟨rows.length - 3, by omega⟩).pm25 else last.pm25)
        pm25_lag_7 := .num (if h : 7 ≤ rows.length then
            (rows.get ⟨rows.length - 7, by omega⟩).pm25 else last.pm25)
        pm25_ma_3 := if h : 3 ≤ rows.length then
            .num (((rows.get ⟨rows.length - 3, by omega⟩).pm25
                 + (rows.get ⟨rows.length - 2, by omega⟩).pm25
                 + (rows.get ⟨rows.length - 1, by omega⟩).pm25) / 3)
          else .nan
        dayofyear := .num ((dayOfYear (nextDay last.timestamp) : ℚ)) }
  else none

/-- Value of a named column of a one-row DataFrame built from `pairs`
(first match wins; `X_pred`'s keys are distinct). -/
def lookupCol (pairs : List (String × PyVal)) (c : String) : Option PyVal :=
  (pairs.find? (fun p => p.1 == c)).map (·.2)

/-- pandas column selection `pd.DataFrame([X_pred])[feature_cols]` (line 114):
produces the requested columns, in the requested order, dropping unrequested
ones; raises `KeyError` (modelled by `Except.error`) iff some requested column
is absent from the frame.  It never compares the frame's own column order
against `cols`. -/
def selectColumns (pairs : List (String × PyVal)) (cols : List String) :
    Except Unit (List (String × PyVal)) :=
  if cols.all (fun c => (lookupCol pairs c).isSome) then
    .ok (cols.map (fun c => (c, (lookupCol pairs c).getD .nan)))
  else
    .error ()

/-- One entry of the geocoding response's `results` array; either coordinate
key may be absent. -/
structure GeoResult where
  latitude : Option ℚ
  longitude : Option ℚ
deriving DecidableEq, Repr

/-- The outcome of `requests.get(geo_url).json()`: a transport/parse failure
(any exception, caught by the `try`), or a JSON object whose `results` key is
absent (`none`) or holds an array of entries. -/
inductive GeoResp where
  | transportFailure
  | json (results : Option (List GeoResult))
deriving DecidableEq, Repr

/-- `get_city_coordinates` (lines 8–19).  On transport failure the exception
is caught, an error message is shown and `(None, None)` is returned; likewise
when `results` is absent or empty.  Otherwise the code reads
`resp["results"][0]["latitude"]` and `["longitude"]` outside any `try`, so a
first entry lacking either key raises `KeyError` to the caller
(`Except.error`). -/
def get_city_coordinates (resp : GeoResp) : Except Unit (Option ℚ × Option ℚ) :=
  match resp with
  | .transportFailure => .ok (none, none)
  | .json none => .ok (none, none)
  | .json (some []) => .ok (none, none)
  | .json (some (r :: _)) =>
    match r.latitude with
    | none => .error ()
    | some lat =>
      match r.longitude with
      | none => .error ()
      | some lon => .ok (some lat, some lon)

/-- The `hourly` object of the air-quality response; each array key may be
absent. -/
structure AirHourly where
  time : Option (List String)
  pm2_5 : Option (List ℚ)
deriving DecidableEq, Repr

/-- The outcome of the air-quality data request: transport/parse failure, or
a JSON object whose `hourly` key is absent (`none`) or present. -/
inductive AirResp where
  | transportFailure
  | json (hourly : Option AirHourly)
deriving DecidableEq, Repr

/-- Result of a fetcher: whether a request to the data endpoint was issued,
and the resulting table (a list of rows; `[]` is `pd.DataFrame()`-empty). -/
structure FetchResult (ρ : Type) where
  requested : Bool
  table : List ρ
deriving DecidableEq, Repr

/-- `fetch_pm25` (lines 21–42).  Resolves coordinates first; `if lat is None`
returns an empty frame without touching the data endpoint.  Otherwise one
request is issued; on transport failure an error is shown and an empty frame
returned; if `hourly` or `hourly.pm2_5` is absent an empty frame is returned.
Only then does the code build `pd.DataFrame({"timestamp": hourly["time"],
"pm25": hourly["pm2_5"]})`, so an absent `time` key raises `KeyError`
(uncaught), and arrays of unequal length raise `ValueError`. -/
def fetch_pm25 (geo : GeoResp) (resp : AirResp) :
    Except Unit (FetchResult (String × ℚ)) := do
  let (lat, _lon) ← get_city_coordinates geo
  if lat = none then
    return ⟨false, []⟩
  match resp with
  | .transportFailure => return ⟨true, []⟩
  | .json none => return ⟨true, []⟩
  | .json (some h) =>
    match h.pm2_5 with
    | none => return ⟨true, []⟩
    | some pm =>
      match h.time with
      | none => .error ()
      | some times =>
        if times.length = pm.length then
          return ⟨true, times.zip pm⟩
        else
          .error ()

/-- The `hourly` object of the weather-archive response; each array key may
be absent. -/
structure WxHourly where
  time : Option (List String)
  temperature_2m : Option (List ℚ)
  relative_humidity_2m : Option (List ℚ)
  windspeed_10m : Option (List ℚ)
deriving DecidableEq, Repr

/-- The outcome of the weather-archive data request. -/
inductive WxResp where
  | transportFailure
  | json (hourly : Option WxHourly)
deriving DecidableEq, Repr

/-- `fetch_weather` (lines 44–67).  Same shape as `fetch_pm25`; the guard
checks `hourly` and all of `temperature_2m`, `relative_humidity_2m`,
`windspeed_10m`, but not `time`, which is read when building the frame: an
absent `time` with the three measurement keys present raises `KeyError`. -/
def fetch_weather (geo : GeoResp) (resp : WxResp) :
    Except Unit (FetchResult (String × ℚ × ℚ × ℚ)) := do
  let (lat, _lon) ← get_city_coordinates geo
  if lat = none then
    return ⟨false, []⟩
  match resp with
  | .transportFailure => return ⟨true, []⟩
  | .json none => return ⟨true, []⟩
  | .json (some h) =>
    match h.temperature_2m, h.relative_humidity_2m, h.windspeed_10m with
    | some t, some rh, some ws =>
      match h.time with
      | none => .error ()
      | some times =>
        if times.length = t.length ∧ t.length = rh.length ∧
            rh.length = ws.length then
          return ⟨true, times.zip (t.zip (rh.zip ws)) |>.map
            (fun p => (p.1, p.2.1, p.2.2.1, p.2.2.2))⟩
        else
          .error ()
    | _, _, _ => return ⟨true, []⟩

/-- What the button handler's request produced, as seen by the user. -/
inductive Outcome where
  | errorNoPM
  | errorNoMet
  | warnInsufficient
  | fatalMismatch
  | predicted (xdf : List (String × PyVal))
deriving DecidableEq, Repr

/-- The button handler's control flow (lines 92–116), after the two fetches:
`pmEmpty`/`metEmpty` are `pm_df.empty`/`met_df.empty`; `dfFeats` is the
output of the external `make_daily_features` after `reset_index()` (spec
§4.3); `featureCols` is the model artifact's declared feature list.  An empty
PM frame or weather frame produces an error; fewer than 10 daily rows
produces a warning and skips prediction; otherwise `X_pred` is assembled,
columns are selected to `featureCols`, and `model.predict` is invoked on the
selected frame.  A `KeyError` from column selection escapes the handler
(`fatalMismatch`); `model.predict` itself is external and opaque. -/
def runForecast (pmEmpty metEmpty : Bool) (dfFeats : List DailyRow)
    (featureCols : List String) : Outcome :=
  if pmEmpty then .errorNoPM
  else if metEmpty then .errorNoMet
  else if dfFeats.length < 10 then .warnInsufficient
  else
    match assembleXPred dfFeats with
    | none => .fatalMismatch
    | some x =>
      match selectColumns x.toPairs featureCols with
      | .error _ => .fatalMismatch
      | .ok xdf => .predicted xdf

/-- `model.predict` is called exactly on the `.predicted` outcome; a
`fatalMismatch` aborts the request before `predict` runs. -/
def Outcome.predictionAttempted : Outcome → Prop
  | .predicted _ => True
  | _ => False

/-- Classifier for the outcome on which `model.predict` runs. -/
def Outcome.isPredicted : Outcome → Bool
  | .predicted _ => true
  | _ => false

/-- A concrete 10-day daily feature table (Dec 22–31, 2023) with pairwise
distinct pm25 values, used to instantiate theorems with hypotheses. -/
def sampleRows : List DailyRow :=
  (List.range 10).map (fun i => ⟨⟨2023, 12, 22 + i⟩, i, 20, 50, 5⟩)

/-- The nine assembled feature names in reverse order: a feature list that is
a permutation of, but not equal to, the assembled row's columns. -/
def permCols : List String :=
  ["dayofyear", "pm25_ma_3", "pm25_lag_7", "pm25_lag_3", "pm25_lag_2",
   "pm25_lag_1", "windspeed", "relativehumidity", "temperature"]

/-- C10: whenever the table reaches forecast assembly (the handler guarantees
at least 10 rows), the assembled `X_pred` dict has exactly the nine keys
`temperature, relativehumidity, windspeed, pm25_lag_1, pm25_lag_2,
pm25_lag_3, pm25_lag_7, pm25_ma_3, dayofyear`, in that insertion order,
regardless of the table's contents. -/
theorem assembled_keys (rows : List DailyRow) (h : 10 ≤ rows.length) :
    ∃ x, assembleXPred rows = some x ∧
      x.toPairs.map Prod.fst =
        ["temperature", "relativehumidity", "windspeed", "pm25_lag_1",
         "pm25_lag_2", "pm25_lag_3", "pm25_lag_7", "pm25_ma_3", "dayofyear"] := by
  unfold assembleXPred
  rw [dif_pos (by omega)]
  exact ⟨_, rfl, rfl⟩

/-- Witness for `assembled_keys` at the concrete 10-row table. -/
theorem assembled_keys_witness :
    10 ≤ sampleRows.length ∧
      ∃ x, assembleXPred sampleRows = some x ∧
        x.toPairs.map Prod.fst =
          ["temperature", "relativehumidity", "windspeed", "pm25_lag_1",
           "pm25_lag_2", "pm25_lag_3", "pm25_lag_7", "pm25_ma_3", "dayofyear"] :=
  ⟨by decide, assembled_keys sampleRows (by decide)⟩

/-- C2: for a table of at least 7 rows reaching assembly, `pm25_lag_7` is the
pm25 of `df_feats.iloc[-7]`, the 7th-from-last row (index `length - 7`): the
value seven days before the forecast day, which the spec describes as
"exactly 7 rows before the last row" counting the last row as one step. -/
theorem pm25_lag_7_seventh_from_last (rows : List DailyRow)
    (h : 7 ≤ rows.length) :
    ∃ x, assembleXPred rows = some x ∧
      x.pm25_lag_7 = .num ((rows.get ⟨rows.length - 7, by omega⟩).pm25) := by
  unfold assembleXPred
  rw [dif_pos (by omega)]
  refine ⟨_, rfl, ?_⟩
  simp only
  rw [dif_pos h]

/-- Witness for `pm25_lag_7_seventh_from_last`: on the concrete table with
pm25 values `0,…,9`, the assembled lag-7 value is `3`, the entry at index 3. -/
theorem pm25_lag_7_seventh_from_last_witness :
    7 ≤ sampleRows.length ∧
      ∃ x, assembleXPred sampleRows = some x ∧
        x.pm25_lag_7 = .num ((sampleRows.get ⟨sampleRows.length - 7, by decide⟩).pm25) :=
  ⟨by decide, pm25_lag_7_seventh_from_last sampleRows (by decide)⟩

/-- C7: for a nonempty table with fewer than `k` rows, `k ∈ {2, 3, 7}`, the
assembled `pm25_lag_k` falls back to the last row's pm25 value. -/
theorem pm25_lag_fallback (rows : List DailyRow) (h1 : 1 ≤ rows.length) :
    ∃ x, assembleXPred rows = some x ∧
      (rows.length < 2 →
        x.pm25_lag_2 = .num ((rows.get ⟨rows.length - 1, by omega⟩).pm25)) ∧
      (rows.length < 3 →
        x.pm25_lag_3 = .num ((rows.get ⟨rows.length - 1, by omega⟩).pm25)) ∧
      (rows.length < 7 →
        x.pm25_lag_7 = .num ((rows.get ⟨rows.length - 1, by omega⟩).pm25)) := by
  unfold assembleXPred
  rw [dif_pos h1]
  refine ⟨_, rfl, ?_, ?_, ?_⟩ <;> intro hk <;> simp only <;>
    rw [dif_neg (by omega)]

/-- Witness for `pm25_lag_fallback` at a one-row table. -/
theorem pm25_lag_fallback_witness :
    1 ≤ (sampleRows.take 1).length ∧
      ∃ x, assembleXPred (sampleRows.take 1) = some x ∧
        ((sampleRows.take 1).length < 2 →
          x.pm25_lag_2 =
            .num (((sampleRows.take 1).get ⟨(sampleRows.take 1).length - 1, by decide⟩).pm25)) ∧
        ((sampleRows.take 1).length < 3 →
          x.pm25_lag_3 =
            .num (((sampleRows.take 1).get ⟨(sampleRows.take 1).length - 1, by decide⟩).pm25)) ∧
        ((sampleRows.take 1).length < 7 →
          x.pm25_lag_7 =
            .num (((sampleRows.take 1).get ⟨(sampleRows.take 1).length - 1, by decide⟩).pm25)) :=
  ⟨by decide, pm25_lag_fallback (sampleRows.take 1) (by decide)⟩

/-- December has 31 days, so the day after a December 31 is January 1 of the
next year, whose ordinal day-of-year is 1. -/
theorem dayOfYear_nextDay_dec31 (d : Date) (hm : d.month = 12) (hd : d.day = 31) :
    dayOfYear (nextDay d) = 1 := by
  simp [nextDay, hm, hd, daysInMonth, dayOfYear]

/-- C6: the assembled `dayofyear` is the ordinal day-of-year of the calendar
day after the last row's timestamp, and when the last timestamp is a
December 31 the rollover makes it 1. -/
theorem dayofyear_next_day (rows : List DailyRow) (h : 1 ≤ rows.length) :
    ∃ x, assembleXPred rows = some x ∧
      x.dayofyear =
        .num (dayOfYear (nextDay ((rows.get ⟨rows.length - 1, by omega⟩).timestamp))) ∧
      ((rows.get ⟨rows.length - 1, by omega⟩).timestamp.month = 12 →
        (rows.get ⟨rows.length - 1, by omega⟩).timestamp.day = 31 →
        x.dayofyear = .num 1) := by
  unfold assembleXPred
  rw [dif_pos h]
  refine ⟨_, rfl, rfl, fun hm hd => ?_⟩
  simp only
  rw [dayOfYear_nextDay_dec31 _ hm hd]
  norm_num

/-- Witness for `dayofyear_next_day` at the concrete table ending on
2023-12-31. -/
theorem dayofyear_next_day_witness :
    1 ≤ sampleRows.length ∧
      ∃ x, assembleXPred sampleRows = some x ∧
        x.dayofyear =
          .num (dayOfYear (nextDay ((sampleRows.get ⟨sampleRows.length - 1, by decide⟩).timestamp))) ∧
        ((sampleRows.get ⟨sampleRows.length - 1, by decide⟩).timestamp.month = 12 →
          (sampleRows.get ⟨sampleRows.length - 1, by decide⟩).timestamp.day = 31 →
          x.dayofyear = .num 1) :=
  ⟨by decide, dayofyear_next_day sampleRows (by decide)⟩

/-- A concrete 10-day daily feature table whose pm25 value is 7 on every
day. -/
def constRows : List DailyRow :=
  (List.range 10).map (fun i => ⟨⟨2024, 6, 1 + i⟩, 7, 21, 55, 4⟩)

/-- C9: on a table of at least 10 rows with constant pm25 value `V`, the
assembled row has all four lags and the 3-day moving average equal to `V`,
weather scalars equal to the last row's, and `dayofyear` that of the day
after the last timestamp. -/
theorem constant_table_assembly (rows : List DailyRow) (V : ℚ)
    (h : 10 ≤ rows.length) (hV : ∀ r ∈ rows, r.pm25 = V) :
    ∃ x, assembleXPred rows = some x ∧
      x.pm25_lag_1 = .num V ∧ x.pm25_lag_2 = .num V ∧
      x.pm25_lag_3 = .num V ∧ x.pm25_lag_7 = .num V ∧
      x.pm25_ma_3 = .num V ∧
      x.temperature = .num ((rows.get ⟨rows.length - 1, by omega⟩).temperature) ∧
      x.relativehumidity = .num ((rows.get ⟨rows.length - 1, by omega⟩).relativehumidity) ∧
      x.windspeed = .num ((rows.get ⟨rows.length - 1, by omega⟩).windspeed) ∧
      x.dayofyear =
        .num (dayOfYear (nextDay ((rows.get ⟨rows.length - 1, by omega⟩).timestamp))) := by
  have hmem : ∀ (i : Nat) (hi : i < rows.length), (rows.get ⟨i, hi⟩).pm25 = V :=
    fun i hi => hV _ (rows.get_mem _ _)
  have hV3 : (V + V + V) / 3 = V := by field_simp; ring
  unfold assembleXPred
  rw [dif_pos (by omega : 1 ≤ rows.length)]
  refine ⟨_, rfl, ?_, ?_, ?_, ?_, ?_, rfl, rfl, rfl, rfl⟩ <;> simp only
  · rw [hmem]
  · rw [dif_pos (by omega : 2 ≤ rows.length), hmem]
  · rw [dif_pos (by omega : 3 ≤ rows.length), hmem]
  · rw [dif_pos (by omega : 7 ≤ rows.length), hmem]
  · rw [dif_pos (by omega : 3 ≤ rows.length), hmem, hmem, hmem, hV3]

/-- Witness for `constant_table_assembly` at the constant table. -/
theorem constant_table_assembly_witness :
    10 ≤ constRows.length ∧ (∀ r ∈ constRows, r.pm25 = 7) ∧
      ∃ x, assembleXPred constRows = some x ∧
        x.pm25_lag_1 = .num 7 ∧ x.pm25_lag_2 = .num 7 ∧
        x.pm25_lag_3 = .num 7 ∧ x.pm25_lag_7 = .num 7 ∧
        x.pm25_ma_3 = .num 7 ∧
        x.temperature = .num ((constRows.get ⟨constRows.length - 1, by decide⟩).temperature) ∧
        x.relativehumidity = .num ((constRows.get ⟨constRows.length - 1, by decide⟩).relativehumidity) ∧
        x.windspeed = .num ((constRows.get ⟨constRows.length - 1, by decide⟩).windspeed) ∧
        x.dayofyear =
          .num (dayOfYear (nextDay ((constRows.get ⟨constRows.length - 1, by decide⟩).timestamp))) :=
  ⟨by decide, by decide, constant_table_assembly constRows 7 (by decide) (by decide)⟩

/-- C5: with both fetches nonempty, a daily table of fewer than 10 rows
produces the insufficient-data warning, and `model.predict` runs only when
the table has at least 10 rows. -/
theorem short_table_skips_prediction (pmEmpty metEmpty : Bool)
    (dfFeats : List DailyRow) (featureCols : List String) :
    (pmEmpty = false → metEmpty = false → dfFeats.length < 10 →
      runForecast pmEmpty metEmpty dfFeats featureCols = .warnInsufficient) ∧
    ((runForecast pmEmpty metEmpty dfFeats featureCols).predictionAttempted →
      10 ≤ dfFeats.length) := by
  constructor
  · rintro rfl rfl hlt
    simp [runForecast, hlt]
  · intro hp
    by_contra hlen
    push_neg at hlen
    have hlt : dfFeats.length < 10 := hlen
    cases pmEmpty <;> cases metEmpty <;>
      simp [runForecast, hlt, Outcome.predictionAttempted] at hp

/-- Witness for `short_table_skips_prediction` at a five-row table. -/
theorem short_table_skips_prediction_witness :
    (sampleRows.take 5).length < 10 ∧
      runForecast false false (sampleRows.take 5) [] = .warnInsufficient :=
  ⟨by decide,
    (short_table_skips_prediction false false (sampleRows.take 5) []).1 rfl rfl (by decide)⟩

/-- C4: when coordinate resolution yields no match, both fetchers return an
empty table and neither issues a request to its data endpoint, whatever the
endpoints would have answered. -/
theorem no_coords_no_fetch (geo : GeoResp) (air : AirResp) (wx : WxResp)
    (hgeo : get_city_coordinates geo = .ok (none, none)) :
    fetch_pm25 geo air = .ok ⟨false, []⟩ ∧
    fetch_weather geo wx = .ok ⟨false, []⟩ := by
  refine ⟨?_, ?_⟩
  · unfold fetch_pm25
    rw [hgeo]
    rfl
  · unfold fetch_weather
    rw [hgeo]
    rfl

/-- Witness for `no_coords_no_fetch`: an unresolved city (empty `results`)
with both data endpoints down. -/
theorem no_coords_no_fetch_witness :
    get_city_coordinates (.json (some [])) = .ok (none, none) ∧
      fetch_pm25 (.json (some [])) .transportFailure = .ok ⟨false, []⟩ ∧
      fetch_weather (.json (some [])) .transportFailure = .ok ⟨false, []⟩ :=
  ⟨rfl,
    (no_coords_no_fetch (.json (some [])) .transportFailure .transportFailure rfl).1,
    (no_coords_no_fetch (.json (some [])) .transportFailure .transportFailure rfl).2⟩

/-- Counterexample to C3: with coordinates resolved and a payload whose
`hourly` object has the measurement arrays but no `time` array, both
fetchers raise (`KeyError` from `resp["hourly"]["time"]`) instead of
returning an empty table. -/
theorem fetch_missing_time_raises :
    fetch_pm25 (.json (some [⟨some 1, some 2⟩])) (.json (some ⟨none, some []⟩)) =
      .error () ∧
    fetch_weather (.json (some [⟨some 1, some 2⟩]))
      (.json (some ⟨none, some [], some [], some []⟩)) = .error () :=
  ⟨rfl, rfl⟩

/-- C3 as amended: with coordinates resolved, each fetcher returns an empty
table without raising when the `hourly` object is absent or a requested
measurement field is absent; but when the measurement fields are present and
the `time` field is absent, the fetcher raises. -/
theorem fetchers_missing_fields (geo : GeoResp) (lat : ℚ) (lon : Option ℚ)
    (hgeo : get_city_coordinates geo = .ok (some lat, lon)) :
    (fetch_pm25 geo (.json none) = .ok ⟨true, []⟩) ∧
    (∀ t, fetch_pm25 geo (.json (some ⟨t, none⟩)) = .ok ⟨true, []⟩) ∧
    (∀ pm, fetch_pm25 geo (.json (some ⟨none, some pm⟩)) = .error ()) ∧
    (fetch_weather geo (.json none) = .ok ⟨true, []⟩) ∧
    (∀ t tm rh ws, (tm = none ∨ rh = none ∨ ws = none) →
      fetch_weather geo (.json (some ⟨t, tm, rh, ws⟩)) = .ok ⟨true, []⟩) ∧
    (∀ tm rh ws, fetch_weather geo
      (.json (some ⟨none, some tm, some rh, some ws⟩)) = .error ()) := by
  refine ⟨?_, ?_, ?_, ?_, ?_, ?_⟩
  · unfold fetch_pm25; rw [hgeo]; rfl
  · intro t; unfold fetch_pm25; rw [hgeo]; rfl
  · intro pm; unfold fetch_pm25; rw [hgeo]; rfl
  · unfold fetch_weather; rw [hgeo]; rfl
  · intro t tm rh ws hcase
    cases tm <;> cases rh <;> cases ws <;>
      first
      | (unfold fetch_weather; rw [hgeo]; rfl)
      | (exfalso; rcases hcase with h | h | h <;> simp at h)
  · intro tm rh ws; unfold fetch_weather; rw [hgeo]; rfl

/-- Witness for `fetchers_missing_fields` at a resolved city and a payload
with `hourly` absent. -/
theorem fetchers_missing_fields_witness :
    get_city_coordinates (.json (some [⟨some 1, some 2⟩])) = .ok (some 1, some 2) ∧
      fetch_pm25 (.json (some [⟨some 1, some 2⟩])) (.json none) = .ok ⟨true, []⟩ :=
  ⟨rfl, (fetchers_missing_fields (.json (some [⟨some 1, some 2⟩])) 1 (some 2) rfl).1⟩

/-- Counterexample to C8: a geocoding response whose nonempty `results`
array starts with an entry lacking the coordinate keys makes
`get_city_coordinates` raise (`KeyError`) instead of returning a pair. -/
theorem geocode_malformed_entry_raises :
    get_city_coordinates (.json (some [⟨none, none⟩])) = .error () := rfl

/-- C8 as amended: `get_city_coordinates` never raises provided that any
first `results` entry carries both coordinate keys; it returns the
absent pair on transport failure or an absent/empty `results` array, and
the first entry's coordinates otherwise. -/
theorem geocode_wellformed_total (resp : GeoResp)
    (hwf : ∀ r rs, resp = .json (some (r :: rs)) →
      r.latitude.isSome = true ∧ r.longitude.isSome = true) :
    get_city_coordinates resp = .ok (none, none) ∨
    ∃ lat lon, get_city_coordinates resp = .ok (some lat, some lon) := by
  cases resp with
  | transportFailure => exact .inl rfl
  | json o =>
    cases o with
    | none => exact .inl rfl
    | some l =>
      cases l with
      | nil => exact .inl rfl
      | cons r rs =>
        obtain ⟨rla, rlo⟩ := r
        obtain ⟨hla, hlo⟩ := hwf ⟨rla, rlo⟩ rs rfl
        cases rla with
        | none => simp at hla
        | some lat =>
          cases rlo with
          | none => simp at hlo
          | some lon => exact .inr ⟨lat, lon, rfl⟩

/-- Witness for `geocode_wellformed_total` on a transport failure. -/
theorem geocode_wellformed_total_witness :
    get_city_coordinates .transportFailure = .ok (none, none) ∨
    ∃ lat lon, get_city_coordinates .transportFailure = .ok (some lat, some lon) :=
  geocode_wellformed_total .transportFailure (fun _ _ h => GeoResp.noConfusion h)

/-- Counterexample to C1: on the concrete 10-row table and a model feature
list that is the reverse of the assembled row's columns, the assembled
columns differ from the feature list yet selection succeeds and the handler
reaches `model.predict` — the selection silently reorders. -/
theorem selectColumns_reorder_silently :
    ((assembleXPred sampleRows).map
        (fun x => decide (x.toPairs.map Prod.fst = permCols))).getD true = false ∧
    (runForecast false false sampleRows permCols).isPredicted = true := by
  refine ⟨by decide, by decide⟩

/-- C1 as amended: the prediction step raises for a request exactly when the
model's declared feature list contains a column absent from the assembled
row; otherwise selection returns the declared columns in the declared order
(silently reordering or dropping assembled columns) and prediction
proceeds. -/
theorem selectColumns_fails_iff_missing (pairs : List (String × PyVal))
    (cols : List String) :
    (selectColumns pairs cols = .error () ↔
      ∃ c ∈ cols, c ∉ pairs.map Prod.fst) ∧
    (∀ out, selectColumns pairs cols = .ok out → out.map Prod.fst = cols) := by
  have hlook : ∀ c, (lookupCol pairs c).isSome = true ↔ c ∈ pairs.map Prod.fst := by
    intro c
    simp [lookupCol, List.find?_isSome, List.mem_map]
  by_cases hall : cols.all (fun c => (lookupCol pairs c).isSome) = true
  · rw [selectColumns, if_pos hall]
    constructor
    · constructor
      · intro h
        exact absurd h (by simp)
      · rintro ⟨c, hc, hnot⟩
        exact absurd ((hlook c).mp (List.all_eq_true.mp hall c hc)) hnot
    · intro out hout
      cases hout
      rw [List.map_map]
      have hid : (Prod.fst ∘ fun c => (c, (lookupCol pairs c).getD PyVal.nan)) = id := rfl
      rw [hid, List.map_id]
  · rw [selectColumns, if_neg hall]
    constructor
    · constructor
      · intro _
        rw [List.all_eq_true] at hall
        push_neg at hall
        obtain ⟨c, hc, hns⟩ := hall
        exact ⟨c, hc, fun hmem => hns ((hlook c).mpr hmem)⟩
      · intro _
        rfl
    · intro out hout
      cases hout

/-- Witness for `selectColumns_fails_iff_missing`: requesting a column the
assembled frame does not have raises. -/
theorem selectColumns_fails_iff_missing_witness :
    selectColumns [("a", PyVal.num 1)] ["b"] = .error () :=
  ((selectColumns_fails_iff_missing [("a", PyVal.num 1)] ["b"]).1).mpr
    ⟨"b", by decide, by decide⟩

end Vajra
